import Mathlib

/-!
Shallow embedding of `datahub-web-react/src/app/permissions/policy/PolicyPrivilegeForm.tsx`.

The component is event-driven UI glue: every select/deselect handler computes a value and
reports it upward through a callback prop (`setPrivileges` or `setResources`), and the two
search handlers issue a GraphQL search query.  Each handler is embedded as a pure function
from the component context (props, configuration, search results) and the handler
argument to the value passed to the callback (or the issued query input).

Helper functions imported from `./policyUtils` are not part of the source tree being
verified; they are modelled from the data-model sentence of the spec (a resource-filter
structure: a set of named criteria, each holding a set of typed values) where their
behaviour decides a claim, and left as abstract parameters of the context where only
their wiring matters (`mapResourceTypeToPrivileges`, `mapResourceTypeToEntityType`).
-/

namespace PolicyForm

/-- Entity types, as in `types.generated` (`EntityType.Domain` is the only one the file
names explicitly; a few others stand in for the rest of the enum). -/
inductive EntityType where
  | Domain
  | Dataset
  | Dashboard
  | Chart
  | DataFlow
  | DataJob
  | Container
  deriving DecidableEq, Repr

/-- Policy types, as in `types.generated`. -/
inductive PolicyType where
  | Platform
  | Metadata
  deriving DecidableEq, Repr

/-- An entity as the component sees it: a urn plus its entity type. -/
structure Entity where
  urn : String
  entityType : EntityType
  deriving DecidableEq, Repr

/-- A typed criterion value: a string value, optionally paired with a resolved entity. -/
structure CriterionValue where
  value : String
  entity : Option Entity := none
  deriving DecidableEq, Repr

/-- A named criterion: a field name (`TYPE`, `URN`, `DOMAIN`, ...) holding its values. -/
structure PolicyMatchCriterion where
  field : String
  values : List CriterionValue
  deriving DecidableEq, Repr

/-- The filter: a list of named criteria. -/
structure PolicyMatchFilter where
  criteria : List PolicyMatchCriterion
  deriving DecidableEq, Repr

/-- The resource-filter structure read and written by the component.  Only `filter` is
ever replaced by the handlers; the legacy fields `type`, `resources`, `allResources`
ride along untouched. -/
structure ResourceFilter where
  type : Option String := none
  resources : Option (List String) := none
  allResources : Option Bool := none
  filter : Option PolicyMatchFilter := none
  deriving DecidableEq, Repr

/-- A privilege in the policies configuration: a type identifier and a display name. -/
structure Privilege where
  type : String
  displayName : String
  deriving DecidableEq, Repr

/-- One entry of the resource-privileges catalog in the policies configuration. -/
structure ResourcePrivileges where
  resourceType : String
  resourceTypeDisplayName : String
  entityType : Option EntityType := none
  privileges : List Privilege := []
  deriving DecidableEq, Repr

/-- The policies part of the application configuration. -/
structure PoliciesConfig where
  platformPrivileges : List Privilege := []
  resourcePrivileges : List ResourcePrivileges := []
  deriving DecidableEq, Repr

/-- A search result: the component only ever projects out `result.entity`. -/
structure SearchResult where
  entity : Entity
  deriving DecidableEq, Repr

/-- Modelled from the spec: `getFieldValues` from `policyUtils` (not under the source
tree).  The filter is "a set of named criteria, each holding a set of typed values";
reading a field returns the values of the criterion named by it, defaulting to the
empty list when the filter or the criterion is absent. -/
def getFieldValues (filter : Option PolicyMatchFilter) (field : String) :
    List CriterionValue :=
  match filter with
  | none => []
  | some f =>
    match f.criteria.find? (fun c => c.field == field) with
    | some c => c.values
    | none => []

/-- Modelled from the spec: `setFieldValues` from `policyUtils` (not under the source
tree).  Writing a field replaces the values held by the criterion named by it, leaving
every other named criterion unchanged; an empty value list leaves no criterion for the
field. -/
def setFieldValues (filter : PolicyMatchFilter) (field : String)
    (fieldValues : List CriterionValue) : PolicyMatchFilter :=
  let rest := filter.criteria.filter (fun c => c.field != field)
  if fieldValues.isEmpty then { criteria := rest }
  else { criteria := rest ++ [{ field := field, values := fieldValues }] }

/-- Modelled from the spec: `createCriterionValue` from `policyUtils` (not under the
source tree): a criterion value carrying just the string value. -/
def createCriterionValue (value : String) : CriterionValue :=
  { value := value, entity := none }

/-- Modelled from the spec: `createCriterionValueWithEntity` from `policyUtils` (not
under the source tree): a criterion value carrying the string value and the resolved
entity when one is known. -/
def createCriterionValueWithEntity (value : String) (entity : Option Entity) :
    CriterionValue :=
  { value := value, entity := entity }

/-- Modelled from the spec: `convertLegacyResourceFilter` from `policyUtils` (not under
the source tree).  The spec describes no legacy format, so it passes the optional
resource filter through unchanged; in particular an absent filter stays absent. -/
def convertLegacyResourceFilter (resourceFilter : Option ResourceFilter) :
    Option ResourceFilter :=
  resourceFilter

/-- Modelled from the spec: `EMPTY_POLICY.resources` from `policyUtils` (not under the
source tree): a resource filter whose filter holds an empty criteria list. -/
def EMPTY_POLICY_resources : ResourceFilter :=
  { filter := some { criteria := [] } }

/-- The context of the component: its props (`policyType`, optional `resources`,
`privileges`), the policies configuration, the current search results, and — as
abstract parameters — the two `policyUtils` mapping functions that are not under the
source tree. -/
structure Ctx where
  policyType : PolicyType
  maybeResources : Option ResourceFilter := none
  privileges : List String := []
  policiesConfig : Option PoliciesConfig := none
  resourceSearchResults : Option (List SearchResult) := none
  domainSearchResults : Option (List SearchResult) := none
  mapResourceTypeToPrivileges : List String → List ResourcePrivileges → List Privilege :=
    fun _ _ => []
  mapResourceTypeToEntityType : String → List ResourcePrivileges → Option EntityType :=
    fun _ _ => none

/-- Line 69: `convertLegacyResourceFilter(maybeResources) || EMPTY_POLICY.resources`. -/
def Ctx.resources (ctx : Ctx) : ResourceFilter :=
  (convertLegacyResourceFilter ctx.maybeResources).getD EMPTY_POLICY_resources

/-- Line 70: the values of the `TYPE` field, defaulting to the empty list. -/
def resourceTypes (ctx : Ctx) : List CriterionValue :=
  getFieldValues ctx.resources.filter "TYPE"

/-- Line 71: the values of the `URN` field, defaulting to the empty list. -/
def resourceEntities (ctx : Ctx) : List CriterionValue :=
  getFieldValues ctx.resources.filter "URN"

/-- Line 89: the values of the `DOMAIN` field, defaulting to the empty list. -/
def domains (ctx : Ctx) : List CriterionValue :=
  getFieldValues ctx.resources.filter "DOMAIN"

/-- Line 102: the current value of the resource-type dropdown. -/
def resourceTypeSelectValue (ctx : Ctx) : List String :=
  (resourceTypes ctx).map (fun criterionValue => criterionValue.value)

/-- Line 103: the current value of the resource dropdown. -/
def resourceSelectValue (ctx : Ctx) : List String :=
  (resourceEntities ctx).map (fun criterionValue => criterionValue.value)

/-- Line 104: the current value of the domain dropdown. -/
def domainSelectValue (ctx : Ctx) : List String :=
  (getFieldValues ctx.resources.filter "DOMAIN").map (fun criterionValue => criterionValue.value)

/-- Line 99: the resource filter inputs are rendered exactly when the policy type is
not `Platform`. -/
def showResourceFilterInput (ctx : Ctx) : Bool :=
  ctx.policyType != PolicyType.Platform

/-- Line 109: `policiesConfig?.platformPrivileges || []`. -/
def platformPrivilegesOf (ctx : Ctx) : List Privilege :=
  (ctx.policiesConfig.map (fun c => c.platformPrivileges)).getD []

/-- Line 110: `policiesConfig?.resourcePrivileges || []`. -/
def resourcePrivilegesOf (ctx : Ctx) : List ResourcePrivileges :=
  (ctx.policiesConfig.map (fun c => c.resourcePrivileges)).getD []

/-- Lines 111-114: `mapResourceTypeToPrivileges(resourceTypeSelectValue, resourcePrivileges)`. -/
def resourcePrivilegesForType (ctx : Ctx) : List Privilege :=
  ctx.mapResourceTypeToPrivileges (resourceTypeSelectValue ctx) (resourcePrivilegesOf ctx)

/-- Line 115: platform privileges for `Platform` policies, mapped resource privileges
otherwise. -/
def privilegeOptions (ctx : Ctx) : List Privilege :=
  if ctx.policyType = PolicyType.Platform then platformPrivilegesOf ctx
  else resourcePrivilegesForType ctx

/-- Lines 117-118: `searchResults?.map((result) => result.entity).find((entity) => entity.urn === urn)`. -/
def getEntityFromSearchResults (searchResults : Option (List SearchResult))
    (urn : String) : Option Entity :=
  searchResults.bind (fun results =>
    (results.map (fun result => result.entity)).find? (fun entity => entity.urn == urn))

/-- Lines 318-326: the resource-type dropdown options,
the resource privileges whose resourceType differs from `all`. -/
def resourceTypeDropdownOptions (ctx : Ctx) : List ResourcePrivileges :=
  (resourcePrivilegesOf ctx).filter (fun privs => privs.resourceType != "all")

/-- Lines 121-128, `onSelectPrivilege`: selecting `All` replaces the selection with
the type identifiers of all current privilege options; any other privilege is appended
to the current list.  The result is the list reported via `setPrivileges`. -/
def onSelectPrivilege (ctx : Ctx) (privilege : String) : List String :=
  if privilege == "All" then
    (privilegeOptions ctx).map (fun priv => priv.type)
  else
    ctx.privileges ++ [privilege]

/-- Lines 131-139, `onDeselectPrivilege`: deselecting `All` empties the list; any
other privilege is filtered out of the current list.  The result is the list reported
via `setPrivileges`. -/
def onDeselectPrivilege (ctx : Ctx) (privilege : String) : List String :=
  if privilege == "All" then []
  else ctx.privileges.filter (fun priv => priv != privilege)

/-- Lines 142-150, `onSelectResourceType`: append a criterion value for the selected
type to the `TYPE` field.  The result is the resource filter reported via
`setResources`. -/
def onSelectResourceType (ctx : Ctx) (selectedResourceType : String) : ResourceFilter :=
  let filter := ctx.resources.filter.getD { criteria := [] }
  { ctx.resources with
    filter := some (setFieldValues filter "TYPE"
      (resourceTypes ctx ++ [createCriterionValue selectedResourceType])) }

/-- Lines 152-164, `onDeselectResourceType`: drop every `TYPE` criterion value whose
value equals the deselected type. -/
def onDeselectResourceType (ctx : Ctx) (deselectedResourceType : String) : ResourceFilter :=
  let filter := ctx.resources.filter.getD { criteria := [] }
  { ctx.resources with
    filter := some (setFieldValues filter "TYPE"
      ((resourceTypes ctx).filter
        (fun criterionValue => criterionValue.value != deselectedResourceType))) }

/-- Lines 167-181, `onSelectResource`: append a criterion value for the selected urn to
the `URN` field, resolving the entity from the current resource search results. -/
def onSelectResource (ctx : Ctx) (resource : String) : ResourceFilter :=
  let filter := ctx.resources.filter.getD { criteria := [] }
  { ctx.resources with
    filter := some (setFieldValues filter "URN"
      (resourceEntities ctx ++
        [createCriterionValueWithEntity resource
          (getEntityFromSearchResults ctx.resourceSearchResults resource)])) }

/-- Lines 184-196, `onDeselectResource`: drop every `URN` criterion value whose value
equals the deselected urn. -/
def onDeselectResource (ctx : Ctx) (resource : String) : ResourceFilter :=
  let filter := ctx.resources.filter.getD { criteria := [] }
  { ctx.resources with
    filter := some (setFieldValues filter "URN"
      ((resourceEntities ctx).filter
        (fun criterionValue => criterionValue.value != resource))) }

/-- Lines 199-212, `onSelectDomain`: append a criterion value for the selected domain
urn to the `DOMAIN` field, taking the given domain object when present and otherwise
resolving the entity from the current domain search results. -/
def onSelectDomain (ctx : Ctx) (domainUrn : String) (domainObj : Option Entity) :
    ResourceFilter :=
  let filter := ctx.resources.filter.getD { criteria := [] }
  let domainEntity :=
    match domainObj with
    | some d => some d
    | none => getEntityFromSearchResults ctx.domainSearchResults domainUrn
  let updatedFilter := setFieldValues filter "DOMAIN"
    (domains ctx ++ [createCriterionValueWithEntity domainUrn domainEntity])
  { ctx.resources with filter := some updatedFilter }

/-- Lines 220-232, `onDeselectDomain`: drop every `DOMAIN` criterion value whose value
equals the deselected domain urn. -/
def onDeselectDomain (ctx : Ctx) (domain : String) : ResourceFilter :=
  let filter := ctx.resources.filter.getD { criteria := [] }
  { ctx.resources with
    filter := some (setFieldValues filter "DOMAIN"
      ((domains ctx).filter (fun criterionValue => criterionValue.value != domain))) }

/-- The input of the multi-entity search query (`searchAcrossEntities` variables). -/
structure MultiSearchInput where
  types : List EntityType
  query : String
  start : Nat
  count : Nat
  deriving DecidableEq, Repr

/-- The input of the single-type search query (`search` variables). -/
structure SingleSearchInput where
  type : EntityType
  query : String
  start : Nat
  count : Nat
  deriving DecidableEq, Repr

/-- Lines 235-250, `handleResourceSearch`: map each selected resource type through
`mapResourceTypeToEntityType`, drop the unmapped ones, and issue the multi-entity
search with the trimmed text when it is longer than 2 and the wildcard otherwise. -/
def handleResourceSearch (ctx : Ctx) (text : String) : MultiSearchInput :=
  let trimmedText := text.trim
  let entityTypes :=
    ((resourceTypeSelectValue ctx).map
      (fun resourceType => ctx.mapResourceTypeToEntityType resourceType (resourcePrivilegesOf ctx))).filterMap id
  { types := entityTypes
    query := if trimmedText.length > 2 then trimmedText else "*"
    start := 0
    count := 10 }

/-- Lines 253-266, `handleDomainSearch`: store the trimmed text as the new domain
input value and issue the single-type search over `EntityType.Domain` with the trimmed
text when it is longer than 2 and the wildcard otherwise.  The first component is the value
passed to `setDomainInputValue`. -/
def handleDomainSearch (ctx : Ctx) (text : String) : String × SingleSearchInput :=
  let trimmedText := text.trim
  (trimmedText,
    { type := EntityType.Domain
      query := if trimmedText.length > 2 then trimmedText else "*"
      start := 0
      count := 10 })

/-- The local UI state of the component: exactly the two `useState` hooks of lines 61-62,
the domain search text and the focus flag. -/
structure UIState where
  domainInputValue : String
  isFocusedOnInput : Bool
  deriving DecidableEq, Repr

/-- Line 106: `!domainInputValue && isFocusedOnInput` (the empty string is the only
falsy search text). -/
def isShowingDomainNavigator (s : UIState) : Bool :=
  s.domainInputValue.isEmpty && s.isFocusedOnInput

/-- Line 399: the domain navigator browser is hidden exactly when
`isShowingDomainNavigator` is false (`isHidden={!isShowingDomainNavigator}`). -/
def domainNavigatorShown (s : UIState) : Bool :=
  !(!(isShowingDomainNavigator s))

/-- Line 391: the dropdownStyle prop hides the search dropdown exactly when the
navigator is showing. -/
def domainDropdownHidden (s : UIState) : Bool :=
  isShowingDomainNavigator s

/-- Lines 294-296, `handleBlur`: blurring the domain input resets the search text. -/
def handleBlur (s : UIState) : UIState :=
  { s with domainInputValue := "" }

/-- JavaScript substring on the character sequence of the receiver. -/
def jsSubstring (s : String) (a b : Nat) : String :=
  String.mk ((s.data.take b).drop a)

/-- Lines 283-287, `displayStringWithMaxLength`: strings longer than the bound are cut
to the leading minimum of bound and length characters, suffixed with an ellipsis. -/
def displayStringWithMaxLength (displayStr : String) (bound : Nat) : String :=
  if displayStr.length > bound then
    jsSubstring displayStr 0 (min bound displayStr.length) ++ "..."
  else displayStr

/-- JavaScript `x || fallback` on an optional string: the fallback is taken when the
string is absent or empty (the falsy cases). -/
def jsStringOr (s : Option String) (fallback : String) : String :=
  match s with
  | some v => if v.isEmpty then fallback else v
  | none => fallback

/-- Lines 345-355 and 383-390: the text of a rendered resource or domain tag,
`displayStringWithMaxLength(displayNameMap[value] || value, 75)`. -/
def renderEntityTag (displayNameOf : String → Option String) (value : String) : String :=
  displayStringWithMaxLength (jsStringOr (displayNameOf value) value) 75

/-! ## Concrete contexts used by the witnesses -/

/-- A context whose privileges already contain `"EDIT"` and whose `TYPE` field already
contains `"dataset"`. -/
def ctxDup : Ctx :=
  { policyType := .Metadata
    privileges := ["EDIT"]
    maybeResources := some
      { filter := some { criteria := [{ field := "TYPE", values := [{ value := "dataset" }] }] } } }

/-- A context whose optional resources prop is absent. -/
def ctxNoResources : Ctx :=
  { policyType := .Metadata }

/-- A context whose resources prop is present but has no filter. -/
def ctxNoFilter : Ctx :=
  { policyType := .Metadata
    maybeResources := some { type := some "DATASET", allResources := some true, filter := none } }

/-- A concrete display-name lookup knowing one urn. -/
def displayNameW (urn : String) : Option String :=
  if urn == "urn:li:dataset:1" then some "Nice Name" else none

/-! ## Helper lemmas -/

theorem find?_false {α : Type} (l : List α) : l.find? (fun _ => false) = none := by
  induction l with
  | nil => rfl
  | cons a l ih => simp [List.find?, ih]

/-- Writing a field with `setFieldValues` and reading it back with `getFieldValues`
returns exactly the written values. -/
theorem getFieldValues_setFieldValues (f : PolicyMatchFilter) (φ : String)
    (vs : List CriterionValue) :
    getFieldValues (some (setFieldValues f φ vs)) φ = vs := by
  rcases vs with _ | ⟨v, vs'⟩
  · simp [getFieldValues, setFieldValues, find?_false]
  · simp [getFieldValues, setFieldValues, List.find?_append, find?_false]

/-! ## Claim theorems -/

/-- C3: `onSelectPrivilege` at `All` reports exactly the list of type identifiers of the
current privilege options, and for every other privilege `p`, `onSelectPrivilege` at `p`
reports the current privileges list with `p` appended at the end. -/
theorem selectPrivilege_spec (ctx : Ctx) (p : String) (hp : p ≠ "All") :
    onSelectPrivilege ctx "All" = (privilegeOptions ctx).map (fun priv => priv.type) ∧
    onSelectPrivilege ctx p = ctx.privileges ++ [p] := by
  have hb : (p == "All") = false := by simpa using hp
  constructor
  · simp [onSelectPrivilege]
  · simp [onSelectPrivilege, hb]

/-- Witness for C3 at a concrete context and `p = "EDIT"`. -/
theorem selectPrivilege_spec_witness :
    ("EDIT" : String) ≠ "All" ∧
    (onSelectPrivilege { policyType := .Metadata, privileges := ["VIEW"] } "All" =
        (privilegeOptions { policyType := .Metadata, privileges := ["VIEW"] }).map
          (fun priv => priv.type) ∧
      onSelectPrivilege { policyType := .Metadata, privileges := ["VIEW"] } "EDIT" =
        ["VIEW", "EDIT"]) :=
  ⟨by decide, selectPrivilege_spec { policyType := .Metadata, privileges := ["VIEW"] }
    "EDIT" (by decide)⟩

/-- C4: `onDeselectPrivilege` at `All` reports the empty list, and for every other
privilege `p`, `onDeselectPrivilege` at `p` reports the current list with every occurrence of
`p` removed, the order of the remaining privileges preserved (it is `List.filter`). -/
theorem deselectPrivilege_spec (ctx : Ctx) (p : String) (hp : p ≠ "All") :
    onDeselectPrivilege ctx "All" = [] ∧
    onDeselectPrivilege ctx p = ctx.privileges.filter (fun priv => priv != p) := by
  have hb : (p == "All") = false := by simpa using hp
  constructor
  · simp [onDeselectPrivilege]
  · simp [onDeselectPrivilege, hb]

/-- Witness for C4 at a concrete context and `p = "EDIT"`. -/
theorem deselectPrivilege_spec_witness :
    ("EDIT" : String) ≠ "All" ∧
    (onDeselectPrivilege
        { policyType := .Metadata, privileges := ["VIEW", "EDIT", "VIEW", "EDIT"] } "All" = [] ∧
      onDeselectPrivilege
        { policyType := .Metadata, privileges := ["VIEW", "EDIT", "VIEW", "EDIT"] } "EDIT" =
        (["VIEW", "EDIT", "VIEW", "EDIT"] : List String).filter (fun priv => priv != "EDIT")) :=
  ⟨by decide, deselectPrivilege_spec
    { policyType := .Metadata, privileges := ["VIEW", "EDIT", "VIEW", "EDIT"] }
    "EDIT" (by decide)⟩

/-- C1: the component does not deduplicate.  If a privilege `p` other than `All` is already in
the privileges list, `onSelectPrivilege` at `p` reports a list containing `p` at least
twice; if the `TYPE` field already contains a criterion value with value `t`,
`onSelectResourceType` at `t` reports a `TYPE` field with at least two criterion values
whose value is `t`. -/
theorem noDeduplication (ctx : Ctx) (p t : String)
    (hp : p ≠ "All") (hmem : p ∈ ctx.privileges)
    (ht : t ∈ (resourceTypes ctx).map (fun cv => cv.value)) :
    2 ≤ (onSelectPrivilege ctx p).count p ∧
    2 ≤ (getFieldValues (onSelectResourceType ctx t).filter "TYPE").countP
        (fun cv => cv.value == t) := by
  have hb : (p == "All") = false := by simpa using hp
  constructor
  · have h1 : 0 < ctx.privileges.count p := List.count_pos_iff.mpr hmem
    have h2 : onSelectPrivilege ctx p = ctx.privileges ++ [p] := by
      simp [onSelectPrivilege, hb]
    rw [h2, List.count_append]
    have h3 : List.count p [p] = 1 := List.count_singleton_self p
    omega
  · have hf : (onSelectResourceType ctx t).filter =
        some (setFieldValues (ctx.resources.filter.getD { criteria := [] }) "TYPE"
          (resourceTypes ctx ++ [createCriterionValue t])) := rfl
    rw [hf, getFieldValues_setFieldValues, List.countP_append]
    have h1 : 0 < (resourceTypes ctx).countP (fun cv => cv.value == t) := by
      rw [List.countP_pos_iff]
      rcases List.mem_map.mp ht with ⟨cv, hcv, hval⟩
      exact ⟨cv, hcv, by simp [hval]⟩
    have h2 : [createCriterionValue t].countP (fun cv => cv.value == t) = 1 := by
      simp [createCriterionValue]
    omega

/-- Witness for C1: context whose privileges already contain `"EDIT"` and whose `TYPE`
field already contains `"dataset"`. -/
theorem noDeduplication_witness :
    ("EDIT" : String) ≠ "All" ∧
    "EDIT" ∈ (ctxDup.privileges) ∧
    "dataset" ∈ (resourceTypes ctxDup).map (fun cv => cv.value) ∧
    (2 ≤ (onSelectPrivilege ctxDup "EDIT").count "EDIT" ∧
      2 ≤ (getFieldValues (onSelectResourceType ctxDup "dataset").filter "TYPE").countP
          (fun cv => cv.value == "dataset")) :=
  ⟨by decide, by decide, by decide,
    noDeduplication ctxDup "EDIT" "dataset" (by decide) (by decide) (by decide)⟩

/-- C5: every resource-filter handler only replaces the `filter` field; the `type`,
`resources` and `allResources` fields of the reported structure are those of the
incoming resources structure. -/
theorem handlers_frame (ctx : Ctx) (t r du : String) (ob : Option Entity) :
    ((onSelectResourceType ctx t).type = ctx.resources.type ∧
      (onSelectResourceType ctx t).resources = ctx.resources.resources ∧
      (onSelectResourceType ctx t).allResources = ctx.resources.allResources) ∧
    ((onDeselectResourceType ctx t).type = ctx.resources.type ∧
      (onDeselectResourceType ctx t).resources = ctx.resources.resources ∧
      (onDeselectResourceType ctx t).allResources = ctx.resources.allResources) ∧
    ((onSelectResource ctx r).type = ctx.resources.type ∧
      (onSelectResource ctx r).resources = ctx.resources.resources ∧
      (onSelectResource ctx r).allResources = ctx.resources.allResources) ∧
    ((onDeselectResource ctx r).type = ctx.resources.type ∧
      (onDeselectResource ctx r).resources = ctx.resources.resources ∧
      (onDeselectResource ctx r).allResources = ctx.resources.allResources) ∧
    ((onSelectDomain ctx du ob).type = ctx.resources.type ∧
      (onSelectDomain ctx du ob).resources = ctx.resources.resources ∧
      (onSelectDomain ctx du ob).allResources = ctx.resources.allResources) ∧
    ((onDeselectDomain ctx du).type = ctx.resources.type ∧
      (onDeselectDomain ctx du).resources = ctx.resources.resources ∧
      (onDeselectDomain ctx du).allResources = ctx.resources.allResources) :=
  ⟨⟨rfl, rfl, rfl⟩, ⟨rfl, rfl, rfl⟩, ⟨rfl, rfl, rfl⟩, ⟨rfl, rfl, rfl⟩,
    ⟨rfl, rfl, rfl⟩, ⟨rfl, rfl, rfl⟩⟩

/-- C6: each deselect handler reports a filter whose corresponding field holds the
current field values with every criterion value whose value equals the deselected
value removed, the order of the remaining values preserved (it is `List.filter`). -/
theorem deselect_removes_matching (ctx : Ctx) (v : String) :
    getFieldValues (onDeselectResourceType ctx v).filter "TYPE" =
      (resourceTypes ctx).filter (fun cv => cv.value != v) ∧
    getFieldValues (onDeselectResource ctx v).filter "URN" =
      (resourceEntities ctx).filter (fun cv => cv.value != v) ∧
    getFieldValues (onDeselectDomain ctx v).filter "DOMAIN" =
      (domains ctx).filter (fun cv => cv.value != v) :=
  ⟨getFieldValues_setFieldValues _ _ _, getFieldValues_setFieldValues _ _ _,
    getFieldValues_setFieldValues _ _ _⟩

/-- C2: `handleResourceSearch` issues the multi-entity search restricted to the entity
types obtained by mapping each selected resource type through
`mapResourceTypeToEntityType` and dropping the unmapped ones, and `handleDomainSearch`
issues the single-type search with type `Domain`; in both, the query is the trimmed
text when its trimmed length exceeds 2 and the wildcard otherwise, always with start 0 and
count 10. -/
theorem search_queries_spec (ctx : Ctx) (text : String) :
    (handleResourceSearch ctx text).types =
      ((resourceTypeSelectValue ctx).map
        (fun resourceType =>
          ctx.mapResourceTypeToEntityType resourceType (resourcePrivilegesOf ctx))).filterMap id ∧
    (handleResourceSearch ctx text).query =
      (if 2 < text.trim.length then text.trim else "*") ∧
    (handleResourceSearch ctx text).start = 0 ∧
    (handleResourceSearch ctx text).count = 10 ∧
    (handleDomainSearch ctx text).2.type = EntityType.Domain ∧
    (handleDomainSearch ctx text).2.query =
      (if 2 < text.trim.length then text.trim else "*") ∧
    (handleDomainSearch ctx text).2.start = 0 ∧
    (handleDomainSearch ctx text).2.count = 10 :=
  ⟨rfl, rfl, rfl, rfl, rfl, rfl, rfl, rfl⟩

/-- C7: the local UI state is the pair (focus flag, domain search text); the domain
navigator is shown iff the input is focused and the search text is empty, the search
dropdown is hidden exactly in that state, and blurring resets the search text to the
empty string (leaving the focus flag alone). -/
theorem ui_state_spec (s : UIState) :
    (isShowingDomainNavigator s = true ↔
      s.isFocusedOnInput = true ∧ s.domainInputValue = "") ∧
    domainNavigatorShown s = isShowingDomainNavigator s ∧
    domainDropdownHidden s = isShowingDomainNavigator s ∧
    (handleBlur s).domainInputValue = "" ∧
    (handleBlur s).isFocusedOnInput = s.isFocusedOnInput := by
  refine ⟨?_, by simp [domainNavigatorShown], rfl, rfl, rfl⟩
  simp only [isShowingDomainNavigator, Bool.and_eq_true, String.isEmpty_iff]
  constructor
  · rintro ⟨h1, h2⟩
    exact ⟨h2, h1⟩
  · rintro ⟨h1, h2⟩
    exact ⟨h2, h1⟩

/-- C8: with the resources prop absent the component falls back to
`EMPTY_POLICY.resources` and every field read gives the empty list; and whenever the
filter is missing, every select/deselect handler substitutes the fallback filter
holding an empty criteria list, so each is total. -/
theorem absent_resources_defaults (ctx ctx2 : Ctx) (t r du : String) (ob : Option Entity)
    (h : ctx.maybeResources = none) (h2 : ctx2.resources.filter = none) :
    ctx.resources = EMPTY_POLICY_resources ∧
    resourceTypes ctx = [] ∧ resourceEntities ctx = [] ∧ domains ctx = [] ∧
    (onSelectResourceType ctx2 t).filter =
      some (setFieldValues { criteria := [] } "TYPE"
        (resourceTypes ctx2 ++ [createCriterionValue t])) ∧
    (onDeselectResourceType ctx2 t).filter =
      some (setFieldValues { criteria := [] } "TYPE"
        ((resourceTypes ctx2).filter (fun cv => cv.value != t))) ∧
    (onSelectResource ctx2 r).filter =
      some (setFieldValues { criteria := [] } "URN"
        (resourceEntities ctx2 ++
          [createCriterionValueWithEntity r
            (getEntityFromSearchResults ctx2.resourceSearchResults r)])) ∧
    (onDeselectResource ctx2 r).filter =
      some (setFieldValues { criteria := [] } "URN"
        ((resourceEntities ctx2).filter (fun cv => cv.value != r))) ∧
    (onSelectDomain ctx2 du ob).filter =
      some (setFieldValues { criteria := [] } "DOMAIN"
        (domains ctx2 ++
          [createCriterionValueWithEntity du
            (match ob with
             | some d => some d
             | none => getEntityFromSearchResults ctx2.domainSearchResults du)])) ∧
    (onDeselectDomain ctx2 du).filter =
      some (setFieldValues { criteria := [] } "DOMAIN"
        ((domains ctx2).filter (fun cv => cv.value != du))) := by
  have he : ctx.resources = EMPTY_POLICY_resources := by
    simp [Ctx.resources, convertLegacyResourceFilter, h]
  have hd : ctx2.resources.filter.getD { criteria := [] } = { criteria := [] } := by
    rw [h2]
    rfl
  refine ⟨he, ?_, ?_, ?_, ?_, ?_, ?_, ?_, ?_, ?_⟩
  · simp [resourceTypes, he, EMPTY_POLICY_resources, getFieldValues]
  · simp [resourceEntities, he, EMPTY_POLICY_resources, getFieldValues]
  · simp [domains, he, EMPTY_POLICY_resources, getFieldValues]
  · rw [← hd]; exact rfl
  · rw [← hd]; exact rfl
  · rw [← hd]; exact rfl
  · rw [← hd]; exact rfl
  · rw [← hd]; exact rfl
  · rw [← hd]; exact rfl

/-- Witness for C8 at a context without the resources prop and one whose resources
have no filter. -/
theorem absent_resources_defaults_witness :
    ctxNoResources.maybeResources = none ∧
    ctxNoFilter.resources.filter = none ∧
    (ctxNoResources.resources = EMPTY_POLICY_resources ∧
      resourceTypes ctxNoResources = [] ∧ resourceEntities ctxNoResources = [] ∧
      domains ctxNoResources = [] ∧
      (onSelectResourceType ctxNoFilter "dataset").filter =
        some (setFieldValues { criteria := [] } "TYPE"
          (resourceTypes ctxNoFilter ++ [createCriterionValue "dataset"])) ∧
      (onDeselectResourceType ctxNoFilter "dataset").filter =
        some (setFieldValues { criteria := [] } "TYPE"
          ((resourceTypes ctxNoFilter).filter (fun cv => cv.value != "dataset"))) ∧
      (onSelectResource ctxNoFilter "urn:li:dataset:1").filter =
        some (setFieldValues { criteria := [] } "URN"
          (resourceEntities ctxNoFilter ++
            [createCriterionValueWithEntity "urn:li:dataset:1"
              (getEntityFromSearchResults ctxNoFilter.resourceSearchResults
                "urn:li:dataset:1")])) ∧
      (onDeselectResource ctxNoFilter "urn:li:dataset:1").filter =
        some (setFieldValues { criteria := [] } "URN"
          ((resourceEntities ctxNoFilter).filter
            (fun cv => cv.value != "urn:li:dataset:1"))) ∧
      (onSelectDomain ctxNoFilter "urn:li:domain:d" none).filter =
        some (setFieldValues { criteria := [] } "DOMAIN"
          (domains ctxNoFilter ++
            [createCriterionValueWithEntity "urn:li:domain:d"
              (match (none : Option Entity) with
               | some d => some d
               | none => getEntityFromSearchResults ctxNoFilter.domainSearchResults
                   "urn:li:domain:d")])) ∧
      (onDeselectDomain ctxNoFilter "urn:li:domain:d").filter =
        some (setFieldValues { criteria := [] } "DOMAIN"
          ((domains ctxNoFilter).filter (fun cv => cv.value != "urn:li:domain:d")))) :=
  ⟨by decide, by decide,
    absent_resources_defaults ctxNoResources ctxNoFilter "dataset" "urn:li:dataset:1"
      "urn:li:domain:d" none (by decide) (by decide)⟩

/-- C9: the filter inputs are rendered exactly when the policy type is not `Platform`;
the privilege options are the platform privileges for `Platform` policies and the
resource privileges mapped to the selected resource types otherwise; and the
resource-type dropdown excludes every option whose resourceType is `all`. -/
theorem policy_type_rendering (ctx : Ctx) :
    showResourceFilterInput ctx = decide (ctx.policyType ≠ PolicyType.Platform) ∧
    privilegeOptions ctx =
      (if ctx.policyType = PolicyType.Platform then platformPrivilegesOf ctx
       else ctx.mapResourceTypeToPrivileges (resourceTypeSelectValue ctx)
         (resourcePrivilegesOf ctx)) ∧
    (resourceTypeDropdownOptions ctx).all (fun o => o.resourceType != "all") = true := by
  refine ⟨?_, rfl, ?_⟩
  · cases h : ctx.policyType <;> simp [showResourceFilterInput, h]
  · rw [List.all_eq_true]
    intro o ho
    simpa using (List.mem_filter.mp ho).2

/-- C10: `displayStringWithMaxLength` returns the string unchanged when its length is
at most the bound and otherwise the first `bound` characters followed by an ellipsis, a
string of length `bound + 3`; the rendered tag applies it with bound 75 to the display
name when one is known and to the raw value otherwise. -/
theorem display_truncation (s t : String) (bound : Nat) (m : String → Option String)
    (v n w : String) (h1 : s.length ≤ bound) (h2 : bound < t.length)
    (h3 : m v = some n) (h4 : n.isEmpty = false) (h5 : m w = none) :
    displayStringWithMaxLength s bound = s ∧
    displayStringWithMaxLength t bound = String.mk (t.data.take bound) ++ "..." ∧
    (displayStringWithMaxLength t bound).length = bound + 3 ∧
    renderEntityTag m v = displayStringWithMaxLength n 75 ∧
    renderEntityTag m w = displayStringWithMaxLength w 75 := by
  have hmin : min bound t.length = bound := Nat.min_eq_left (Nat.le_of_lt h2)
  have htake : displayStringWithMaxLength t bound = String.mk (t.data.take bound) ++ "..." := by
    simp [displayStringWithMaxLength, jsSubstring, h2, hmin]
  refine ⟨?_, htake, ?_, ?_, ?_⟩
  · simp [displayStringWithMaxLength, Nat.not_lt.mpr h1]
  · rw [htake]
    cases t with
    | mk data =>
      simp only [String.length] at h2 ⊢
      simp [String.append, String.length, List.length_take, Nat.min_eq_left (Nat.le_of_lt h2)]
  · simp [renderEntityTag, jsStringOr, h3, h4]
  · simp [renderEntityTag, jsStringOr, h5]

/-- Witness for C10 at concrete strings and the concrete display-name lookup. -/
theorem display_truncation_witness :
    ("abc" : String).length ≤ 5 ∧ 5 < ("abcdefgh" : String).length ∧
    displayNameW "urn:li:dataset:1" = some "Nice Name" ∧
    ("Nice Name" : String).isEmpty = false ∧
    displayNameW "urn:li:other" = none ∧
    (displayStringWithMaxLength "abc" 5 = "abc" ∧
      displayStringWithMaxLength "abcdefgh" 5 =
        String.mk (("abcdefgh" : String).data.take 5) ++ "..." ∧
      (displayStringWithMaxLength "abcdefgh" 5).length = 5 + 3 ∧
      renderEntityTag displayNameW "urn:li:dataset:1" =
        displayStringWithMaxLength "Nice Name" 75 ∧
      renderEntityTag displayNameW "urn:li:other" =
        displayStringWithMaxLength "urn:li:other" 75) :=
  ⟨by decide, by decide, by decide, by decide, by decide,
    display_truncation "abc" "abcdefgh" 5 displayNameW "urn:li:dataset:1" "Nice Name"
      "urn:li:other" (by decide) (by decide) (by decide) (by decide) (by decide)⟩

end PolicyForm
